import Mathlib

/-!
Shallow embedding of the NSM (Neural Spaced Mastery) ML service:
`server-src/ml/predict.py` and `server-src/ml/train_model.py`.

Numeric values are modelled as rationals.  The trained regression model is
modelled as a function from the scaled feature vector to a scalar (its exact
weights are opaque to this development, as they are to the Python service).
Python exceptions are modelled explicitly: each fallible step yields
`Except PyError`, and the `try/except` wrapper of `predict_interval` maps
every error to the structured fallback result, mirroring lines 106-118 of
`predict.py`.  The module-level cache `_model, _scaler, _metadata` of
`predict.py` is modelled as an explicit `Cache` state threaded through
`load_model` and `predict_interval`.
-/

namespace NSM

/-- A Python exception relevant to the prediction path. -/
inductive PyError where
  | fileNotFound (msg : String)
  | zeroDivision
  | attributeError (msg : String)
  | valueError (msg : String)
deriving DecidableEq, Repr

/-- The trained Keras model, as used in `predict.py` line 86: a function from
the scaled feature row to the scalar written at `prediction[0][0]`. -/
def PyModel : Type := List ℚ → ℚ

/-- The fitted `StandardScaler` as unpickled at prediction time: per-column
location (`mean_`) and scale (`scale_`) arrays. -/
structure StdScaler where
  mean_ : List ℚ
  scale_ : List ℚ
deriving DecidableEq, Repr

/-- The `metadata.json` document written by `train_model.py` lines 224-232 and
read by `predict.py`; every field access in the source goes through
`dict.get`, hence each field is optional. -/
structure Metadata where
  trained_at : Option String := none
  training_samples : Option ℕ := none
  validation_samples : Option ℕ := none
  val_mae : Option ℚ := none
  val_loss : Option ℚ := none
  model_version : Option String := none
  feature_count : Option ℕ := none
deriving DecidableEq, Repr

/-- The on-disk artifact directory `server-src/ml/models`: contents of
`nsm_model.keras`, `scaler.pkl` and `metadata.json`, each possibly absent. -/
structure FileStore where
  modelFile : Option PyModel
  scalerFile : Option StdScaler
  metadataFile : Option Metadata

/-- The module-level globals `_model`, `_scaler`, `_metadata` of `predict.py`
(lines 22-24), all initially `None`. -/
structure Cache where
  _model : Option PyModel
  _scaler : Option StdScaler
  _metadata : Option Metadata

/-- The artifact directory with no files, and the freshly imported module
cache, respectively. -/
def emptyStore : FileStore := ⟨none, none, none⟩

/-- The cache state at module import: all three globals are `None`. -/
def emptyCache : Cache := ⟨none, none, none⟩

/-- `load_model` of `predict.py` lines 26-42.  If `_model` is already set the
cached triple is returned as-is (whatever the other two globals hold).
Otherwise the model file is required to exist, then the model, the scaler and
the metadata are loaded in that order, each global being assigned as soon as
its own load succeeds — so a failure in a later load leaves the earlier
assignments in place, exactly as the Python `global` writes do. -/
def load_model (fs : FileStore) (c : Cache) :
    Cache × Except PyError (PyModel × Option StdScaler × Option Metadata) :=
  match c._model with
  | some m => (c, .ok (m, c._scaler, c._metadata))
  | none =>
    match fs.modelFile with
    | none => (c, .error (.fileNotFound "Model not found at models/nsm_model.keras. Train model first."))
    | some m =>
      let c1 : Cache := { c with _model := some m }
      match fs.scalerFile with
      | none => (c1, .error (.fileNotFound "No such file or directory: models/scaler.pkl"))
      | some s =>
        let c2 : Cache := { c1 with _scaler := some s }
        match fs.metadataFile with
        | none => (c2, .error (.fileNotFound "No such file or directory: models/metadata.json"))
        | some md =>
          let c3 : Cache := { c2 with _metadata := some md }
          (c3, .ok (m, some s, some md))

/-- The loosely-typed `feature_data` dict: exactly the keys read by
`predict.py` lines 60-76 / `train_model.py` lines 62-78, each possibly
absent. -/
structure FeatureData where
  item_difficulty : Option ℚ := none
  user_mastery : Option ℚ := none
  days_since_last_review : Option ℚ := none
  response_time_seconds : Option ℚ := none
  quality_rating : Option ℚ := none
  repetition_count : Option ℚ := none
  current_ease_factor : Option ℚ := none
  current_interval : Option ℚ := none
  hour_of_day : Option ℚ := none
  day_of_week : Option ℚ := none
  time_since_learning_start : Option ℚ := none
  previous_interval : Option ℚ := none
  learning_pace : Option String := none
  cluster_mastery : Option ℚ := none
  is_quiz : Option ℚ := none
  quiz_score : Option ℚ := none
  quiz_questions_count : Option ℚ := none

/-- The categorical pace encoding
`\x7b'fast': 2, 'medium': 1, 'slow': 0\x7d.get(feature_data.get('learning_pace', 'medium'), 1)`
of `predict.py` line 72 / `train_model.py` line 74: absent pace defaults to
"medium", an unknown string falls back to the dict-lookup default 1. -/
def paceEncode (p : Option String) : ℚ :=
  let pace := p.getD "medium"
  if pace = "fast" then 2
  else if pace = "medium" then 1
  else if pace = "slow" then 0
  else 1

/-- The fixed-order 17-element feature list of `predict.py` lines 59-77
(identical to `train_model.py` lines 61-79), with the per-key `dict.get`
defaults of the source. -/
def feature_vector (fd : FeatureData) : List ℚ :=
  [ fd.item_difficulty.getD (1/2),
    fd.user_mastery.getD (1/2),
    fd.days_since_last_review.getD 0,
    fd.response_time_seconds.getD 5,
    fd.quality_rating.getD 3,
    fd.repetition_count.getD 0,
    fd.current_ease_factor.getD (5/2),
    fd.current_interval.getD 1,
    fd.hour_of_day.getD 12,
    fd.day_of_week.getD 3,
    fd.time_since_learning_start.getD 0,
    fd.previous_interval.getD 0,
    paceEncode fd.learning_pace,
    fd.cluster_mastery.getD (1/2),
    fd.is_quiz.getD 0,
    fd.quiz_score.getD 0,
    fd.quiz_questions_count.getD 0 ]

/-- `scaler.transform(X)` (`predict.py` line 83): per-column
`(x - mean_) / scale_`; a row whose width differs from the fitted width makes
sklearn raise a `ValueError`. -/
def scalerTransform (s : StdScaler) (x : List ℚ) : Except PyError (List ℚ) :=
  if x.length = s.mean_.length ∧ x.length = s.scale_.length then
    .ok (List.zipWith (fun xi ms => (xi - ms.1) / ms.2) x (s.mean_.zip s.scale_))
  else
    .error (.valueError "X has a different number of features than StandardScaler was fitted with")

/-- `np.clip(prediction, 1, 180)` of `predict.py` line 89. -/
def clipInterval (x : ℚ) : ℚ := min 180 (max 1 x)

/-- The result dict of `predict_interval`: either the success shape of lines
97-104 or the failure shape of lines 106-118 (whose `fallback_to_rules` field
the source always writes as `True`). -/
inductive PredResult where
  | success (predicted_interval : ℚ) (confidence : ℚ)
      (model_version : Option String) (trained_at : Option String)
  | failure (error : String) (fallback_to_rules : Bool)
deriving DecidableEq, Repr

/-- The two `except` clauses of `predict.py` lines 106-118: a
`FileNotFoundError` is reported with its own message, any other exception with
the message embedded in "Prediction error: ...". Both produce
`fallback_to_rules = True`. -/
def pyFallback : PyError → PredResult
  | .fileNotFound msg => .failure msg true
  | .zeroDivision => .failure "Prediction error: float division by zero" true
  | .attributeError msg => .failure ("Prediction error: " ++ msg) true
  | .valueError msg => .failure ("Prediction error: " ++ msg) true

/-- The body of the `try` block of `predict_interval` after `load_model`
returned (`predict.py` lines 58-104), with each potentially-raising step made
explicit: `scaler.transform` raises an `AttributeError` when the cached
`_scaler` is `None` and a `ValueError` on a width mismatch; the confidence
division (line 94) raises `ZeroDivisionError` when
`feature_data.get('current_interval', 1) * 2` is zero; the final dict literal
(line 101) raises an `AttributeError` when the cached `_metadata` is `None`. -/
def predictResult (m : PyModel) (oscal : Option StdScaler) (ometa : Option Metadata)
    (fd : FeatureData) : PredResult :=
  match oscal with
  | none => pyFallback (.attributeError "NoneType object has no attribute transform")
  | some scaler =>
    match scalerTransform scaler (feature_vector fd) with
    | .error e => pyFallback e
    | .ok xScaled =>
      let predicted_interval := clipInterval (m xScaled)
      let typical_interval := (fd.current_interval.getD 1) * 2
      if typical_interval = 0 then pyFallback .zeroDivision
      else
        let uncertainty := abs (predicted_interval - typical_interval) / typical_interval
        let confidence := max (1/2 : ℚ) (1 - uncertainty * (1/2))
        match ometa with
        | none => pyFallback (.attributeError "NoneType object has no attribute get")
        | some md => .success predicted_interval confidence md.model_version md.trained_at

/-- `predict_interval` of `predict.py` lines 44-118: load the cached bundle,
run the prediction pipeline, and map every raised error to the structured
fallback result. Returns the updated module cache alongside the result. -/
def predict_interval (fs : FileStore) (c : Cache) (fd : FeatureData) :
    Cache × PredResult :=
  let lr := load_model fs c
  match lr.2 with
  | .error e => (lr.1, pyFallback e)
  | .ok (m, oscal, ometa) => (lr.1, predictResult m oscal ometa fd)

/-- The `outcome_data` dict of a training row: `train_model.py` line 83 reads
only `next_interval`, defaulting to 1. -/
structure OutcomeData where
  next_interval : Option ℚ := none

/-- One row of the `ml_training_data` table as prepared at
`train_model.py` line 169. -/
structure TrainRow where
  feature_data : FeatureData
  outcome_data : OutcomeData

/-- `extract_features` of `train_model.py` lines 27-88: per row, the same
fixed-order 17-feature list as the prediction path, paired with the target
`outcome_data.get('next_interval', 1)`. -/
def extract_features (training_data : List TrainRow) : List (List ℚ) × List ℚ :=
  (training_data.map (fun row => feature_vector row.feature_data),
   training_data.map (fun row => row.outcome_data.next_interval.getD 1))

/-- Mean of column `j` of a feature matrix (a `StandardScaler` fit
statistic). -/
def colMean (xs : List (List ℚ)) (j : ℕ) : ℚ :=
  ((xs.map (fun r => r.getD j 0)).sum) / (xs.length : ℚ)

/-- Variance of column `j` of a feature matrix (a `StandardScaler` fit
statistic; `scale_` is its square root). -/
def colVar (xs : List (List ℚ)) (j : ℕ) : ℚ :=
  ((xs.map (fun r => (r.getD j 0 - colMean xs j) ^ 2)).sum) / (xs.length : ℚ)

/-- `StandardScaler.fit`: the per-column fitted statistics (means and
variances) of a feature matrix. -/
def fitStats (xs : List (List ℚ)) : List ℚ × List ℚ :=
  let w := (xs.headD []).length
  ((List.range w).map (colMean xs), (List.range w).map (colVar xs))

set_option linter.unusedVariables false in
/-- `train_model.py` lines 178-180:
`scaler = StandardScaler(); X_train_scaled = scaler.fit_transform(X_train);`
`X_val_scaled = scaler.transform(X_val)` — the fitted statistics are computed
from `X_train` alone; `X_val` is only transformed afterwards. -/
def scalerFittedOn (X_train X_val : List (List ℚ)) : List ℚ × List ℚ :=
  fitStats X_train

/-- Per-row scaling `(x - mean_) / scale_`, applied during training where the
row width equals the fitted width by construction. -/
def transformRow (s : StdScaler) (x : List ℚ) : List ℚ :=
  List.zipWith (fun xi ms => (xi - ms.1) / ms.2) x (s.mean_.zip s.scale_)

/-- `model.save(model_path)` (`train_model.py` line 219): one file write. -/
def saveModelFile (st : FileStore) (m : PyModel) : FileStore :=
  { st with modelFile := some m }

/-- `pickle.dump(scaler, f)` (`train_model.py` lines 220-221): one file
write. -/
def saveScalerFile (st : FileStore) (s : StdScaler) : FileStore :=
  { st with scalerFile := some s }

/-- `json.dump(metadata, f)` (`train_model.py` lines 235-236): one file
write. -/
def saveMetadataFile (st : FileStore) (md : Metadata) : FileStore :=
  { st with metadataFile := some md }

/-- The observable states of the artifact directory along the save sequence of
`train_model.py` lines 212-236: before any write, after `model.save`, after
the scaler dump, after the metadata dump. -/
def persistStates (st : FileStore) (m : PyModel) (s : StdScaler) (md : Metadata) :
    List FileStore :=
  let st1 := saveModelFile st m
  let st2 := saveScalerFile st1 s
  let st3 := saveMetadataFile st2 md
  [st, st1, st2, st3]

/-- The result dict of `train_nsm_model`: the insufficient-data shape of
lines 159-164 or the success shape of lines 240-247. -/
inductive TrainResult where
  | insufficient (error : String) (samples_collected samples_needed : ℕ)
  | trained (training_samples validation_samples : ℕ)
      (val_mae val_loss : ℚ) (model_path : String)

/-- `train_nsm_model` of `train_model.py` lines 132-247, from the point where
the `ml_training_data` rows have been fetched (`rows`).  Unembeddable library
internals are passed in as parameters: `split` stands for
`train_test_split(..., test_size=0.2, random_state=42)` (a deterministic
function of the data, applied jointly to features and targets), `fitter` for
`build_model` + `model.fit` + `model.evaluate` (returning the fitted model,
`val_loss` and `val_mae`), `sqrtQ` for the square root producing
`StandardScaler.scale_` from the fitted variances, and `now` for
`datetime.now().isoformat()`.  Returns the result dict and the artifact
directory after the run. -/
def train_nsm_model
    (split : List (List ℚ × ℚ) → List (List ℚ × ℚ) × List (List ℚ × ℚ))
    (fitter : List (List ℚ) → List ℚ → List (List ℚ) → List ℚ → PyModel × ℚ × ℚ)
    (sqrtQ : ℚ → ℚ) (now : String)
    (rows : List TrainRow) (min_samples : ℕ) (store : FileStore) :
    TrainResult × FileStore :=
  if rows.length < min_samples then
    (.insufficient
      ("Not enough training data. Need " ++ toString min_samples ++
        ", have " ++ toString rows.length)
      rows.length min_samples, store)
  else
    let Xy := extract_features rows
    let splitPairs := split (Xy.1.zip Xy.2)
    let X_train := splitPairs.1.map Prod.fst
    let y_train := splitPairs.1.map Prod.snd
    let X_val := splitPairs.2.map Prod.fst
    let y_val := splitPairs.2.map Prod.snd
    let stats := scalerFittedOn X_train X_val
    let scaler : StdScaler := ⟨stats.1, stats.2.map sqrtQ⟩
    let X_train_scaled := X_train.map (transformRow scaler)
    let X_val_scaled := X_val.map (transformRow scaler)
    let fitted := fitter X_train_scaled y_train X_val_scaled y_val
    let model := fitted.1
    let val_loss := fitted.2.1
    let val_mae := fitted.2.2
    let metadata : Metadata :=
      { trained_at := some now,
        training_samples := some X_train.length,
        validation_samples := some X_val.length,
        val_mae := some val_mae,
        val_loss := some val_loss,
        model_version := some "1.0",
        feature_count := some (X_train_scaled.headD []).length }
    let store2 := (persistStates store model scaler metadata).getLastD store
    (.trained X_train.length X_val.length val_mae val_loss
      "models/nsm_model.keras", store2)

/-- A scaler that leaves a 17-wide feature row unchanged: per-column mean 0
and scale 1. -/
def identityScaler : StdScaler :=
  ⟨List.replicate 17 0, List.replicate 17 1⟩

/-- A model that returns input feature 8 (`current_interval`, index 7 of the
fixed feature order) unchanged. -/
def currentIntervalModel : PyModel :=
  fun xs => xs.getD 7 0

/-- A concrete metadata document for the sample bundle. -/
def sampleMetadata : Metadata :=
  { model_version := some "1.0", trained_at := some "2026-01-01T00:00:00" }

/-- An artifact directory holding the complete sample bundle: identity
scaler, the `current_interval`-echo model, and `sampleMetadata`. -/
def sampleStore : FileStore :=
  ⟨some currentIntervalModel, some identityScaler, some sampleMetadata⟩

/-- The feature mapping containing only `current_interval = 10`. -/
def fdTen : FeatureData := { current_interval := some 10 }

/-- The feature mapping containing only `current_interval = 0`. -/
def fdZero : FeatureData := { current_interval := some 0 }

/-- A trivial stand-in for `train_test_split`: everything into the training
part. -/
def constSplit : List (List ℚ × ℚ) → List (List ℚ × ℚ) × List (List ℚ × ℚ) :=
  fun l => (l, [])

/-- A trivial stand-in for building, fitting and evaluating the network. -/
def constFitter : List (List ℚ) → List ℚ → List (List ℚ) → List ℚ → PyModel × ℚ × ℚ :=
  fun _ _ _ _ => (fun _ => 0, 0, 0)

/-- Ten all-default training rows. -/
def tenRows : List TrainRow := List.replicate 10 ⟨{}, {}⟩

/-- A deterministic split sending the first example to the training part and
the rest to the validation part. -/
def headSplit : List (List ℚ × ℚ) → List (List ℚ × ℚ) × List (List ℚ × ℚ) :=
  fun l => (l.take 1, l.drop 1)

/-- Two two-row datasets that agree on their first (training) example and
differ in the remaining (validation) example. -/
def rowsA : List TrainRow := [⟨{}, {}⟩, ⟨{}, { next_interval := some 3 }⟩]

/-- See `rowsA`: same first example, different second example. -/
def rowsB : List TrainRow := [⟨{}, {}⟩, ⟨{}, { next_interval := some 7 }⟩]

theorem pyFallback_shape (e : PyError) : ∃ msg, pyFallback e = PredResult.failure msg true := by
  cases e <;> exact ⟨_, rfl⟩

theorem pyFallback_ne_success (e : PyError) (p conf : ℚ) (mv ta : Option String) :
    pyFallback e ≠ PredResult.success p conf mv ta := by
  obtain ⟨msg, hf⟩ := pyFallback_shape e
  rw [hf]; simp

theorem clipInterval_bounds (x : ℚ) : 1 ≤ clipInterval x ∧ clipInterval x ≤ 180 := by
  unfold clipInterval
  exact ⟨le_min (by norm_num) (le_max_left 1 x), min_le_left 180 _⟩

theorem predictResult_success (m : PyModel) (os : Option StdScaler) (om : Option Metadata)
    (fd : FeatureData) (p conf : ℚ) (mv ta : Option String)
    (h : predictResult m os om fd = .success p conf mv ta) :
    (fd.current_interval.getD 1) * 2 ≠ 0 ∧ 1 ≤ p ∧ p ≤ 180 ∧
    conf = max (1/2)
      (1 - (abs (p - (fd.current_interval.getD 1) * 2) / ((fd.current_interval.getD 1) * 2)) * (1/2)) := by
  cases os with
  | none =>
    simp only [predictResult] at h
    exact absurd h (pyFallback_ne_success _ _ _ _ _)
  | some scaler =>
    cases htr : scalerTransform scaler (feature_vector fd) with
    | error e =>
      simp only [predictResult, htr] at h
      exact absurd h (pyFallback_ne_success _ _ _ _ _)
    | ok xs =>
      simp only [predictResult, htr] at h
      by_cases h0 : (fd.current_interval.getD 1) * 2 = 0
      · rw [if_pos h0] at h
        exact absurd h (pyFallback_ne_success _ _ _ _ _)
      · rw [if_neg h0] at h
        cases om with
        | none => exact absurd h (pyFallback_ne_success _ _ _ _ _)
        | some md =>
          simp only [PredResult.success.injEq] at h
          obtain ⟨hp, hconf, _, _⟩ := h
          subst hp
          exact ⟨h0, (clipInterval_bounds _).1, (clipInterval_bounds _).2, hconf.symm⟩

theorem predictResult_shape (m : PyModel) (os : Option StdScaler) (om : Option Metadata)
    (fd : FeatureData) :
    (∃ p conf mv ta, predictResult m os om fd = .success p conf mv ta) ∨
    (∃ msg, predictResult m os om fd = .failure msg true) := by
  cases os with
  | none =>
    simp only [predictResult]
    exact .inr (pyFallback_shape _)
  | some scaler =>
    cases htr : scalerTransform scaler (feature_vector fd) with
    | error e =>
      simp only [predictResult, htr]
      exact .inr (pyFallback_shape e)
    | ok xs =>
      simp only [predictResult, htr]
      by_cases h0 : (fd.current_interval.getD 1) * 2 = 0
      · rw [if_pos h0]; exact .inr (pyFallback_shape _)
      · rw [if_neg h0]
        cases om with
        | none => exact .inr (pyFallback_shape _)
        | some md => exact .inl ⟨_, _, _, _, rfl⟩

/-- Claim C1: for every artifact directory, cache state and input feature
mapping, `predict_interval` returns a structured result — either the success
shape or a failure shape carrying `fallback_to_rules = true` — and in
particular, with no persisted bundle and a fresh cache the result is the
failure shape with `fallback_to_rules = true`; no error is ever propagated. -/
theorem predict_interval_total_fallback (fs : FileStore) (c : Cache) (fd : FeatureData) :
    ((∃ p conf mv ta, (predict_interval fs c fd).2 = PredResult.success p conf mv ta) ∨
     (∃ msg, (predict_interval fs c fd).2 = PredResult.failure msg true)) ∧
    (∃ msg, (predict_interval emptyStore emptyCache fd).2 = PredResult.failure msg true) := by
  constructor
  · cases hr : (load_model fs c).2 with
    | error e =>
      simp only [predict_interval, hr]
      exact .inr (pyFallback_shape e)
    | ok t =>
      obtain ⟨m, os, om⟩ := t
      simp only [predict_interval, hr]
      exact predictResult_shape m os om fd
  · refine ⟨"Model not found at models/nsm_model.keras. Train model first.", ?_⟩
    simp [predict_interval, load_model, emptyStore, emptyCache, pyFallback]

/-- Claim C2 (counterexample): with a complete working bundle, predicting with
`current_interval = 0` does not produce a success with confidence 0.5 — there
is no guard for `typical = 0`; the division raises, is caught, and is reported
as the fallback failure shape. -/
theorem confidence_zero_guard_cex :
    (predict_interval sampleStore emptyCache fdZero).2 =
      PredResult.failure "Prediction error: float division by zero" true := by
  simp [predict_interval, load_model, sampleStore, emptyCache, predictResult,
    scalerTransform, feature_vector, fdZero, identityScaler, currentIntervalModel,
    clipInterval, paceEncode, sampleMetadata, pyFallback, List.zipWith, List.replicate]

/-- Claim C2 (amended): for every successful prediction with
`current_interval = q > 0`, the confidence equals
`clamp(1 − 0.5·|predicted − 2q| / (2q), 0.5, 1.0)` and lies in `[0.5, 1.0]`;
with `current_interval = 0` the request never raises but is answered with the
failure shape carrying `fallback_to_rules = true` (not with confidence 0.5:
the source has no guard for `typical = 0`). -/
theorem confidence_clamp_amended (fs : FileStore) (c : Cache) (fd : FeatureData) :
    (∀ q p conf mv ta, fd.current_interval = some q → 0 < q →
       (predict_interval fs c fd).2 = PredResult.success p conf mv ta →
       conf = min 1 (max (1/2) (1 - (1/2) * (abs (p - q * 2) / (q * 2)))) ∧
       1/2 ≤ conf ∧ conf ≤ 1) ∧
    (fd.current_interval = some 0 →
       ∃ msg, (predict_interval fs c fd).2 = PredResult.failure msg true) := by
  constructor
  · intro q p conf mv ta hq hqpos hsucc
    cases hr : (load_model fs c).2 with
    | error e =>
      simp only [predict_interval, hr] at hsucc
      exact absurd hsucc (pyFallback_ne_success _ _ _ _ _)
    | ok t =>
      obtain ⟨m, os, om⟩ := t
      simp only [predict_interval, hr] at hsucc
      obtain ⟨h0, hp1, hp180, hconf⟩ := predictResult_success m os om fd p conf mv ta hsucc
      rw [hq] at hconf
      simp only [Option.getD_some] at hconf
      have hu : 0 ≤ abs (p - q * 2) / (q * 2) :=
        div_nonneg (abs_nonneg _) (by linarith)
      have hle : 1 - abs (p - q * 2) / (q * 2) * (1/2) ≤ 1 := by linarith
      have hmaxle : max (1/2 : ℚ) (1 - abs (p - q * 2) / (q * 2) * (1/2)) ≤ 1 :=
        max_le (by norm_num) hle
      refine ⟨?_, ?_, ?_⟩
      · rw [hconf, (min_eq_right hmaxle).symm]
        ring_nf
      · rw [hconf]; exact le_max_left _ _
      · rw [hconf]; exact hmaxle
  · intro h0
    cases hr : (load_model fs c).2 with
    | error e =>
      simp only [predict_interval, hr]
      exact pyFallback_shape e
    | ok t =>
      obtain ⟨m, os, om⟩ := t
      simp only [predict_interval, hr]
      rcases predictResult_shape m os om fd with ⟨p, conf, mv, ta, hs⟩ | hf
      · have := (predictResult_success m os om fd p conf mv ta hs).1
        rw [h0] at this
        simp at this
      · exact hf

/-- Claim C2 (witness): the amended statement instantiated at the sample
bundle and `current_interval = 10`, where the prediction succeeds with
confidence 3/4. -/
theorem confidence_clamp_amended_witness :
    fdTen.current_interval = some 10 ∧ (0:ℚ) < 10 ∧
    (predict_interval sampleStore emptyCache fdTen).2 =
      PredResult.success 10 (3/4) (some "1.0") (some "2026-01-01T00:00:00") ∧
    ((3/4 : ℚ) = min 1 (max (1/2) (1 - (1/2) * (abs ((10:ℚ) - 10 * 2) / (10 * 2)))) ∧
     (1/2 : ℚ) ≤ 3/4 ∧ (3/4 : ℚ) ≤ 1) := by
  have hs : (predict_interval sampleStore emptyCache fdTen).2 =
      PredResult.success 10 (3/4) (some "1.0") (some "2026-01-01T00:00:00") := by
    simp [predict_interval, load_model, sampleStore, emptyCache, predictResult,
      scalerTransform, feature_vector, fdTen, identityScaler, currentIntervalModel,
      clipInterval, paceEncode, sampleMetadata, List.zipWith, List.replicate]
    norm_num
  exact ⟨rfl, by norm_num,
    hs, (confidence_clamp_amended sampleStore emptyCache fdTen).1 10 10 (3/4)
      (some "1.0") (some "2026-01-01T00:00:00") rfl (by norm_num) hs⟩

/-- Claim C3 (counterexample): in the write sequence of the training run's
save step, the state reached right after `model.save` is an observable state
of the artifact directory in which the model file is present while the scaler
and metadata files are still absent — the bundle is not persisted as a single
atomic unit. -/
theorem persist_atomicity_cex :
    saveModelFile emptyStore currentIntervalModel ∈
      persistStates emptyStore currentIntervalModel identityScaler sampleMetadata ∧
    (saveModelFile emptyStore currentIntervalModel).modelFile.isSome ∧
    (saveModelFile emptyStore currentIntervalModel).scalerFile = none ∧
    (saveModelFile emptyStore currentIntervalModel).metadataFile = none := by
  refine ⟨?_, rfl, rfl, rfl⟩
  simp only [persistStates]
  exact List.mem_cons_of_mem _ (List.mem_cons_self _ _)

/-- Claim C3 (amended): the bundle is persisted by three sequential file
writes — model, then scaler, then metadata.  After the final write the
artifact directory holds exactly the new bundle (the previous bundle is
overwritten file by file), but the sequence is not atomic: the state right
after the model write exposes the new model file together with whatever
scaler and metadata the directory held before. -/
theorem persist_sequence_amended (st : FileStore) (m : PyModel) (s : StdScaler) (md : Metadata) :
    (persistStates st m s md).getLastD st = ⟨some m, some s, some md⟩ ∧
    saveModelFile st m ∈ persistStates st m s md ∧
    (saveModelFile st m).modelFile = some m ∧
    (saveModelFile st m).scalerFile = st.scalerFile ∧
    (saveModelFile st m).metadataFile = st.metadataFile := by
  refine ⟨rfl, ?_, rfl, rfl, rfl⟩
  simp only [persistStates]
  exact List.mem_cons_of_mem _ (List.mem_cons_self _ _)

/-- Claim C4: with a bundle whose scaler is the identity (per-column mean 0,
scale 1) and whose model returns input feature 8 (`current_interval`,
zero-based index 7) unchanged, predicting `current_interval = 10` returns
`predicted_interval = 10` and `confidence = 3/4`, tagged with the bundle's
provenance. -/
theorem end_to_end_identity_bundle :
    (predict_interval sampleStore emptyCache fdTen).2 =
      PredResult.success 10 (3/4) (some "1.0") (some "2026-01-01T00:00:00") := by
  simp [predict_interval, load_model, sampleStore, emptyCache, predictResult,
    scalerTransform, feature_vector, fdTen, identityScaler, currentIntervalModel,
    clipInterval, paceEncode, sampleMetadata, List.zipWith, List.replicate]
  norm_num

/-- Claim C5: when fewer training rows than the minimum threshold were
retrieved, `train_nsm_model` returns the insufficient-data result with the
exact collected and needed counts, and the artifact directory is returned
unchanged — no model, scaler or metadata file is written. -/
theorem insufficient_data_no_write
    (split : List (List ℚ × ℚ) → List (List ℚ × ℚ) × List (List ℚ × ℚ))
    (fitter : List (List ℚ) → List ℚ → List (List ℚ) → List ℚ → PyModel × ℚ × ℚ)
    (sqrtQ : ℚ → ℚ) (now : String) (rows : List TrainRow) (min_samples : ℕ)
    (store : FileStore) (h : rows.length < min_samples) :
    train_nsm_model split fitter sqrtQ now rows min_samples store =
      (TrainResult.insufficient
        ("Not enough training data. Need " ++ toString min_samples ++
          ", have " ++ toString rows.length)
        rows.length min_samples, store) := by
  unfold train_nsm_model
  rw [if_pos h]

/-- Claim C5 (witness): training on 10 rows against the default threshold 500
reports exactly 10 collected and 500 needed, leaving the empty artifact
directory empty. -/
theorem insufficient_data_no_write_witness :
    tenRows.length < 500 ∧
    train_nsm_model constSplit constFitter id "2026-01-01T00:00:00" tenRows 500 emptyStore =
      (TrainResult.insufficient
        ("Not enough training data. Need " ++ toString (500:ℕ) ++
          ", have " ++ toString tenRows.length)
        tenRows.length 500, emptyStore) :=
  ⟨by decide, insufficient_data_no_write constSplit constFitter id
    "2026-01-01T00:00:00" tenRows 500 emptyStore (by decide)⟩

/-- Claim C6: every successful service-level result carries a
`predicted_interval` in the closed interval `[1, 180]`, whatever the raw model
output was. -/
theorem predicted_interval_clipped (fs : FileStore) (c : Cache) (fd : FeatureData)
    (p conf : ℚ) (mv ta : Option String)
    (h : (predict_interval fs c fd).2 = PredResult.success p conf mv ta) :
    1 ≤ p ∧ p ≤ 180 := by
  cases hr : (load_model fs c).2 with
  | error e =>
    simp only [predict_interval, hr] at h
    exact absurd h (pyFallback_ne_success _ _ _ _ _)
  | ok t =>
    obtain ⟨m, os, om⟩ := t
    simp only [predict_interval, hr] at h
    obtain ⟨_, h1, h2, _⟩ := predictResult_success m os om fd p conf mv ta h
    exact ⟨h1, h2⟩

/-- Claim C6 (witness): the clipping bound instantiated at the sample bundle's
successful prediction. -/
theorem predicted_interval_clipped_witness :
    (predict_interval sampleStore emptyCache fdTen).2 =
      PredResult.success 10 (3/4) (some "1.0") (some "2026-01-01T00:00:00") ∧
    (1 ≤ (10:ℚ) ∧ (10:ℚ) ≤ 180) := by
  have hs : (predict_interval sampleStore emptyCache fdTen).2 =
      PredResult.success 10 (3/4) (some "1.0") (some "2026-01-01T00:00:00") := by
    simp [predict_interval, load_model, sampleStore, emptyCache, predictResult,
      scalerTransform, feature_vector, fdTen, identityScaler, currentIntervalModel,
      clipInterval, paceEncode, sampleMetadata, List.zipWith, List.replicate]
    norm_num
  exact ⟨hs, predicted_interval_clipped sampleStore emptyCache fdTen 10 (3/4)
    (some "1.0") (some "2026-01-01T00:00:00") hs⟩

/-- Claim C7: the empty input mapping produces the documented all-defaults
17-element feature vector; the categorical pace field maps "fast" to 2,
"medium" to 1, "slow" to 0; an absent pace and any unknown pace string map
to 1. -/
theorem default_feature_vector_and_pace :
    feature_vector {} = [1/2, 1/2, 0, 5, 3, 0, 5/2, 1, 12, 3, 0, 0, 1, 1/2, 0, 0, 0] ∧
    paceEncode (some "fast") = 2 ∧ paceEncode (some "medium") = 1 ∧
    paceEncode (some "slow") = 0 ∧ paceEncode none = 1 ∧
    (∀ s, s ≠ "fast" → s ≠ "medium" → s ≠ "slow" → paceEncode (some s) = 1) := by
  refine ⟨?_, ?_, ?_, ?_, ?_, ?_⟩
  · simp [feature_vector, paceEncode]
  · simp [paceEncode]
  · simp [paceEncode]
  · simp [paceEncode]
  · simp [paceEncode]
  · intro s h1 h2 h3
    simp only [paceEncode, Option.getD_some]
    rw [if_neg h1, if_neg h2, if_neg h3]

/-- Claim C7 (witness): the unknown-pace rule instantiated at the concrete
unknown string "turbo". -/
theorem default_feature_vector_and_pace_witness :
    ("turbo" ≠ "fast" ∧ "turbo" ≠ "medium" ∧ "turbo" ≠ "slow") ∧
    paceEncode (some "turbo") = 1 :=
  ⟨⟨by decide, by decide, by decide⟩,
    default_feature_vector_and_pace.2.2.2.2.2 "turbo" (by decide) (by decide) (by decide)⟩

/-- Claim C9: with a complete persisted bundle, a second invocation of
`predict_interval` with the identical input, run from the cache state the
first invocation left behind, returns the identical result. -/
theorem predict_deterministic (fs : FileStore) (c : Cache) (fd : FeatureData)
    (h1 : fs.modelFile.isSome) (h2 : fs.scalerFile.isSome) (h3 : fs.metadataFile.isSome) :
    (predict_interval fs ((predict_interval fs c fd).1) fd).2 =
      (predict_interval fs c fd).2 := by
  rw [Option.isSome_iff_exists] at h1 h2 h3
  obtain ⟨mf, hmf⟩ := h1
  obtain ⟨sf, hsf⟩ := h2
  obtain ⟨mdf, hmdf⟩ := h3
  rcases c with ⟨cm, cs, cmd⟩
  cases cm with
  | some m0 => simp [predict_interval, load_model]
  | none =>
    rcases fs with ⟨mfo, sfo, mdo⟩
    simp only at hmf hsf hmdf
    subst hmf hsf hmdf
    simp [predict_interval, load_model]

/-- Claim C9 (witness): determinism instantiated at the sample bundle and the
`current_interval = 10` input, starting from the fresh module cache. -/
theorem predict_deterministic_witness :
    (predict_interval sampleStore ((predict_interval sampleStore emptyCache fdTen).1) fdTen).2 =
      (predict_interval sampleStore emptyCache fdTen).2 :=
  predict_deterministic sampleStore emptyCache fdTen rfl rfl rfl

/-- Claim C10: if the model file exists but the scaler file is missing, the
first `load_model` call raises after having already assigned the module-level
`_model` global; a later call therefore takes the cached path and returns the
model with `None` scaler and metadata without raising and without retrying any
file load, whatever the artifact directory then contains. -/
theorem load_model_cache_retains_model (m : PyModel) (mdo : Option Metadata) :
    load_model ⟨some m, none, mdo⟩ emptyCache =
      (⟨some m, none, none⟩,
        Except.error (PyError.fileNotFound "No such file or directory: models/scaler.pkl")) ∧
    ∀ fs2 : FileStore, load_model fs2 ⟨some m, none, none⟩ =
      (⟨some m, none, none⟩, Except.ok (m, none, none)) :=
  ⟨rfl, fun _ => rfl⟩

/-- Claim C8: the scaler statistics are fitted on the training split only —
for any deterministic split, two datasets whose training parts coincide yield
identical fitted per-column statistics, whatever their validation parts. -/
theorem scaler_fit_train_only
    (split : List (List ℚ × ℚ) → List (List ℚ × ℚ) × List (List ℚ × ℚ))
    (rows₁ rows₂ : List TrainRow)
    (h : (split ((extract_features rows₁).1.zip (extract_features rows₁).2)).1 =
         (split ((extract_features rows₂).1.zip (extract_features rows₂).2)).1) :
    scalerFittedOn
        ((split ((extract_features rows₁).1.zip (extract_features rows₁).2)).1.map Prod.fst)
        ((split ((extract_features rows₁).1.zip (extract_features rows₁).2)).2.map Prod.fst) =
    scalerFittedOn
        ((split ((extract_features rows₂).1.zip (extract_features rows₂).2)).1.map Prod.fst)
        ((split ((extract_features rows₂).1.zip (extract_features rows₂).2)).2.map Prod.fst) := by
  unfold scalerFittedOn
  rw [h]

/-- Claim C8 (witness): two concrete two-row datasets sharing their training
example but differing in their validation example produce identical fitted
statistics. -/
theorem scaler_fit_train_only_witness :
    (headSplit ((extract_features rowsA).1.zip (extract_features rowsA).2)).1 =
      (headSplit ((extract_features rowsB).1.zip (extract_features rowsB).2)).1 ∧
    scalerFittedOn
        ((headSplit ((extract_features rowsA).1.zip (extract_features rowsA).2)).1.map Prod.fst)
        ((headSplit ((extract_features rowsA).1.zip (extract_features rowsA).2)).2.map Prod.fst) =
    scalerFittedOn
        ((headSplit ((extract_features rowsB).1.zip (extract_features rowsB).2)).1.map Prod.fst)
        ((headSplit ((extract_features rowsB).1.zip (extract_features rowsB).2)).2.map Prod.fst) :=
  ⟨rfl, scaler_fit_train_only headSplit rowsA rowsB rfl⟩

end NSM
